import Mathlib

/-
Shallow embedding of the episode evaluation and reward-shaping engine of the
mavros_gym repository:
  - src/task_envs/uav_follow_trajectory_task_env.py  (termination flags,
    reward computation, workspace / ground / flip / goal checks, orientation
    distance on quaternions, per-episode variable initialisation)
  - src/mavros_gym/robot_sim_env.py                  (episode bookkeeping:
    reward accumulation in step, episode publication and reset in
    _update_episode)

Real-valued sensor data is modelled by ℝ.  The Python float NaN, which one
code path produces and feeds into the reward arithmetic, is modelled by the
distinguished value RV.nan.  A raised Python exception is modelled by
Except.error PyExn.exn.  External collaborators are modelled as inputs:
tf.transformations.euler_from_quaternion is an opaque function supplied in the
configuration, and the collision sensor reading (self.collision_check, a
boolean or severity scalar with Python truthiness) is a real-valued argument.
-/

noncomputable section

/-- A raised Python exception.  The modelled code paths raise ValueError or
TypeError inside numpy; the distinction between them is irrelevant to every
claim, so a single constructor suffices. -/
inductive PyExn
  | exn
  deriving DecidableEq

/-- A Python float that is either an ordinary real or NaN.
get_difference_between_orientations returns the float NaN on its zero-norm
branch and that value flows into the reward arithmetic, so the embedding
tracks NaN explicitly. -/
inductive RV
  | nan
  | val (r : ℝ)

/-- Float addition restricted to the values that occur here: NaN propagates,
ordinary reals add. -/
def RV.add : RV → RV → RV
  | RV.val a, RV.val b => RV.val (a + b)
  | _, _ => RV.nan

/-- Float subtraction: NaN propagates, ordinary reals subtract. -/
def RV.sub : RV → RV → RV
  | RV.val a, RV.val b => RV.val (a - b)
  | _, _ => RV.nan

/-- Float multiplication on the values that occur here: NaN propagates. -/
def RV.mul : RV → RV → RV
  | RV.val a, RV.val b => RV.val (a * b)
  | _, _ => RV.nan

/-- The Python comparison x < 0.0 on a float: false when x is NaN. -/
def RV.lt0 : RV → Bool
  | RV.nan => false
  | RV.val r => decide (r < 0)

/-- A 3-D position (geometry_msgs Point). -/
structure Pt3 where
  x : ℝ
  y : ℝ
  z : ℝ

/-- An orientation quaternion in the (w, x, y, z) component order used by the
observation vector and by the numpy 4-vectors of the task env. -/
structure Quat4 where
  w : ℝ
  x : ℝ
  y : ℝ
  z : ℝ

/-- The first seven components of the numeric observation vector
[x, y, z, qw, qx, qy, qz, ...]; the termination and reward code reads only
observations[0][:7]. -/
structure Obs7 where
  x : ℝ
  y : ℝ
  z : ℝ
  qw : ℝ
  qx : ℝ
  qy : ℝ
  qz : ℝ

/-- np.dot of two quaternion 4-vectors. -/
def qdot (a b : Quat4) : ℝ := a.w * b.w + a.x * b.x + a.y * b.y + a.z * b.z

/-- Componentwise numpy addition of two quaternion 4-vectors. -/
def qadd (a b : Quat4) : Quat4 := ⟨a.w + b.w, a.x + b.x, a.y + b.y, a.z + b.z⟩

/-- Componentwise numpy subtraction of two quaternion 4-vectors. -/
def qsub (a b : Quat4) : Quat4 := ⟨a.w - b.w, a.x - b.x, a.y - b.y, a.z - b.z⟩

/-- Componentwise numpy negation of a quaternion 4-vector. -/
def qneg (a : Quat4) : Quat4 := ⟨-a.w, -a.x, -a.y, -a.z⟩

/-- Immutable configuration of the task env: workspace bounds, safety limits,
desired pose, reward constants, the orientation-distance mode flag
(self.geo_distance) and the external Euler-angle conversion
tf.transformations.euler_from_quaternion, modelled as an opaque function
returning (roll, pitch, yaw).  The source fetches max_roll and max_pitch from
the ROS parameter server on every call; they are constants of a run, hence
configuration here. -/
structure Config where
  work_space_x_min : ℝ
  work_space_x_max : ℝ
  work_space_y_min : ℝ
  work_space_y_max : ℝ
  work_space_z_min : ℝ
  work_space_z_max : ℝ
  min_height : ℝ
  max_roll : ℝ
  max_pitch : ℝ
  desired_position : Pt3
  desired_orientation : Quat4
  desired_pose_epsilon : ℝ
  closer_to_point_reward : ℝ
  collision_penalty : ℝ
  end_episode_points : ℝ
  geo_distance : Bool
  eulerFromQuat : Quat4 → ℝ × ℝ × ℝ

/-- Length of the result of elementwise-multiplying two 1-D numpy arrays of
the given lengths, when numpy broadcasting permits it; none models the
ValueError (operands could not be broadcast together) that numpy raises
otherwise. -/
def npBroadcastLen (a b : ℕ) : Option ℕ :=
  if a = b then some a else if a = 1 then some b else if b = 1 then some a else none

/-- get_distance_between_points: np.linalg.norm(a - b) for two 3-D points. -/
def get_distance_between_points (p_start p_end : Pt3) : ℝ :=
  Real.sqrt ((p_start.x - p_end.x) ^ 2 + (p_start.y - p_end.y) ^ 2 +
    (p_start.z - p_end.z) ^ 2)

/-- get_distance_from_desired_point: distance from the current position to the
configured desired position. -/
def get_distance_from_desired_point (cfg : Config) (current_position : Pt3) : ℝ :=
  get_distance_between_points current_position cfg.desired_position

/-- get_difference_between_orientations, translated line by line.

Geodesic branch (self.geo_distance == True): when np.dot(ostart, ostart) > 0
the source builds
  ostart_conj = np.array((ostart[0], -1*ostart[1:4])) / np.dot(ostart, ostart),
an np.array of a pair (scalar, length-3 array), which is a length-2 object
array (recent numpy refuses the ragged input outright, which raises at this
line already).  The next line, o_product = ostart_conj * o_end, elementwise-
multiplies that length-2 array with the length-4 array o_end, which requires
broadcast-compatible lengths; npBroadcastLen 2 4 = none, so numpy raises
ValueError and the call never returns normally.  Were the product somehow
formed, the final o_diff = np.array(log(o_product_norm), acos(...)*vec) passes
an ndarray in the dtype position of np.array and raises TypeError, so every
continuation of this branch raises as well.  When np.dot(ostart, ostart) is
not positive, the source logs an error and returns float(NaN) normally.

Absolute branch: the componentwise norms of ostart - o_end and ostart + o_end,
returning the smaller. -/
def get_difference_between_orientations (cfg : Config) (ostart o_end : Quat4) :
    Except PyExn RV :=
  if cfg.geo_distance then
    if qdot ostart ostart > 0 then
      match npBroadcastLen 2 4 with
      | none => Except.error PyExn.exn
      | some _ => Except.error PyExn.exn
    else
      Except.ok RV.nan
  else
    let d_minus := Real.sqrt (qdot (qsub ostart o_end) (qsub ostart o_end))
    let d_plus := Real.sqrt (qdot (qadd ostart o_end) (qadd ostart o_end))
    if d_minus < d_plus then Except.ok (RV.val d_minus) else Except.ok (RV.val d_plus)

/-- get_difference_from_desired_orientation: difference between the current
orientation and the configured desired orientation. -/
def get_difference_from_desired_orientation (cfg : Config) (current_orientation : Quat4) :
    Except PyExn RV :=
  get_difference_between_orientations cfg current_orientation cfg.desired_orientation

/-- is_in_desired_pose: per-component box test of the 7-component pose against
desired_pose ± epsilon; np.all(curr <= desired + eps) and
np.all(curr > desired - eps). -/
def is_in_desired_pose (cfg : Config) (current_pose : Obs7) (epsilon : ℝ) : Bool :=
  decide
    ((current_pose.x ≤ cfg.desired_position.x + epsilon ∧
      current_pose.y ≤ cfg.desired_position.y + epsilon ∧
      current_pose.z ≤ cfg.desired_position.z + epsilon ∧
      current_pose.qw ≤ cfg.desired_orientation.w + epsilon ∧
      current_pose.qx ≤ cfg.desired_orientation.x + epsilon ∧
      current_pose.qy ≤ cfg.desired_orientation.y + epsilon ∧
      current_pose.qz ≤ cfg.desired_orientation.z + epsilon) ∧
     (current_pose.x > cfg.desired_position.x - epsilon ∧
      current_pose.y > cfg.desired_position.y - epsilon ∧
      current_pose.z > cfg.desired_position.z - epsilon ∧
      current_pose.qw > cfg.desired_orientation.w - epsilon ∧
      current_pose.qx > cfg.desired_orientation.x - epsilon ∧
      current_pose.qy > cfg.desired_orientation.y - epsilon ∧
      current_pose.qz > cfg.desired_orientation.z - epsilon))

/-- is_inside_workspace: nested per-axis checks, lower bound strict, upper
bound inclusive; is_inside starts False and is set True only in the innermost
branch. -/
def is_inside_workspace (cfg : Config) (current_position : Pt3) : Bool :=
  if current_position.x > cfg.work_space_x_min ∧
      current_position.x ≤ cfg.work_space_x_max then
    if current_position.y > cfg.work_space_y_min ∧
        current_position.y ≤ cfg.work_space_y_max then
      if current_position.z > cfg.work_space_z_min ∧
          current_position.z ≤ cfg.work_space_z_max then true
      else false
    else false
  else false

/-- too_close_to_ground: current_position_z < self.min_height. -/
def too_close_to_ground (cfg : Config) (current_position_z : ℝ) : Bool :=
  decide (current_position_z < cfg.min_height)

/-- drone_has_flipped: has_flipped starts True and becomes False only when
roll lies in (-max_roll, max_roll] and pitch lies in (-max_pitch, max_pitch].
The source converts the quaternion with euler_from_quaternion (passing the
components reordered as [x, y, z, w]); the conversion itself is the external
tf library function, modelled by cfg.eulerFromQuat. -/
def drone_has_flipped (cfg : Config) (current_orientation : Quat4) : Bool :=
  let rpy := cfg.eulerFromQuat current_orientation
  if rpy.1 > -cfg.max_roll ∧ rpy.1 ≤ cfg.max_roll then
    if rpy.2.1 > -cfg.max_pitch ∧ rpy.2.1 ≤ cfg.max_pitch then false else true
  else true

/-- The _is_done method: computes the five flags from the observation and the
collision sensor, then returns their disjunction.  Python's `or` returns the
first truthy operand; only the truth value of the result is ever consumed
(`if not done`, the gym done flag), so the Boolean disjunction is the faithful
model.  collision is self.collision_check, truthy iff nonzero. -/
def is_done (cfg : Config) (obs : Obs7) (collision : ℝ) : Bool :=
  let has_collided := decide (collision ≠ 0)
  let is_inside_workspace_now := is_inside_workspace cfg ⟨obs.x, obs.y, obs.z⟩
  let too_close_to_grnd := too_close_to_ground cfg (-1 * obs.z)
  let drone_flipped := drone_has_flipped cfg ⟨obs.qw, obs.qx, obs.qy, obs.qz⟩
  let has_reached_des_pose := is_in_desired_pose cfg obs cfg.desired_pose_epsilon
  has_collided || !is_inside_workspace_now || too_close_to_grnd ||
    drone_flipped || has_reached_des_pose

/-- The per-episode mutable state of the task env that the reward code reads
and writes: the two previous-step baselines, and the informational
accumulators cumulated_reward and cumulated_steps. -/
structure TaskState where
  previous_distance_from_des_point : ℝ
  previous_difference_from_des_orientation : RV
  cumulated_reward : ℝ
  cumulated_steps : ℤ

/-- The _compute_reward method.  It computes the current distance and
orientation difference (the latter may raise, which aborts the call before any
state update, or may be NaN), forms
  distance_difference = (d - previous_d) + 2*(o - previous_o)
in float arithmetic, selects the reward, then updates the previous-step
baselines and the two accumulators and returns the reward.

In the non-terminal branch the source first runs
  if self.collision_check: reward = self.collision_check
and then unconditionally reassigns reward in the following if/else on
distance_difference, so the collision assignment never survives; the embedding
keeps only the surviving assignment.  In the terminal branch the goal test
uses the fixed epsilon 0.5, independent of cfg.desired_pose_epsilon. -/
def compute_reward (cfg : Config) (st : TaskState) (obs : Obs7) (done : Bool)
    (collision : ℝ) : Except PyExn (ℝ × TaskState) :=
  let distance_from_des_point :=
    get_distance_from_desired_point cfg ⟨obs.x, obs.y, obs.z⟩
  match get_difference_from_desired_orientation cfg ⟨obs.qw, obs.qx, obs.qy, obs.qz⟩ with
  | Except.error e => Except.error e
  | Except.ok difference_from_des_orientation =>
    let distance_difference :=
      ((RV.val distance_from_des_point).sub
        (RV.val st.previous_distance_from_des_point)).add
        ((RV.val 2).mul (difference_from_des_orientation.sub
          st.previous_difference_from_des_orientation))
    let reward : ℝ :=
      if !done then
        if distance_difference.lt0 then cfg.closer_to_point_reward else 0
      else
        if collision ≠ 0 then cfg.collision_penalty
        else if is_in_desired_pose cfg obs 0.5 then cfg.end_episode_points
        else -cfg.end_episode_points
    Except.ok (reward,
      { previous_distance_from_des_point := distance_from_des_point,
        previous_difference_from_des_orientation := difference_from_des_orientation,
        cumulated_reward := st.cumulated_reward + reward,
        cumulated_steps := st.cumulated_steps + 1 })

/-- The _init_env_variables method, restricted to the episode variables it
writes (the simulator unpause / estimator reset / arming / takeoff calls are
external collaborators).  In source order it sets cumulated_reward = 0.0, then
previous_distance_from_des_point from the fresh pose, then
previous_difference_from_des_orientation, whose computation may raise; the
returned pair carries the (possibly partially updated) state together with the
normal or exceptional outcome.  cumulated_steps is not assigned anywhere in
this method. -/
def init_env_variables (cfg : Config) (st : TaskState) (pose_position : Pt3)
    (pose_orientation : Quat4) : TaskState × Except PyExn Unit :=
  let st1 := { st with cumulated_reward := 0 }
  let st2 := { st1 with previous_distance_from_des_point :=
    get_distance_from_desired_point cfg pose_position }
  match get_difference_from_desired_orientation cfg pose_orientation with
  | Except.error e => (st2, Except.error e)
  | Except.ok od =>
    ({ st2 with previous_difference_from_des_orientation := od }, Except.ok ())

/-- The episode bookkeeping state of RobotSimEnv: the episode counter, the
running episode reward, and the log of (episode_number, episode_reward) pairs
published on /openai/reward (the telemetry collaborator, modelled as a list
in publication order). -/
structure SimState where
  episode_num : ℤ
  cumulated_episode_reward : ℝ
  published : List (ℤ × ℝ)

/-- The reward accumulation of RobotSimEnv.step:
self.cumulated_episode_reward += reward, where reward is the value the
abstract hook _compute_reward returned for this step. -/
def step_accumulate (s : SimState) (reward : ℝ) : SimState :=
  { s with cumulated_episode_reward := s.cumulated_episode_reward + reward }

/-- N consecutive calls of step, abstracted to their reward accumulation, fed
with the list of per-step rewards in order. -/
def run_steps (s : SimState) (rewards : List ℝ) : SimState :=
  List.foldl step_accumulate s rewards

/-- The _update_episode method, called at the end of every reset: publish
(cumulated_episode_reward, episode_num), then increment episode_num, then
reset cumulated_episode_reward to 0. -/
def update_episode (s : SimState) : SimState :=
  { episode_num := s.episode_num + 1,
    cumulated_episode_reward := 0,
    published := s.published ++ [(s.episode_num, s.cumulated_episode_reward)] }

/-- The identity quaternion (w, x, y, z) = (1, 0, 0, 0). -/
def qId : Quat4 := ⟨1, 0, 0, 0⟩

/-- The zero-norm quaternion. -/
def qZero : Quat4 := ⟨0, 0, 0, 0⟩

/-- A concrete configuration used by the concrete evaluations: the workspace
bounds of the scenario in the spec (x, y in (0, 10], z in (0, 5]), absolute
orientation-distance mode, desired pose at the origin with identity
orientation, and a constant zero Euler conversion. -/
def cfgW : Config :=
  { work_space_x_min := 0, work_space_x_max := 10,
    work_space_y_min := 0, work_space_y_max := 10,
    work_space_z_min := 0, work_space_z_max := 5,
    min_height := 1, max_roll := 1, max_pitch := 1,
    desired_position := ⟨0, 0, 0⟩, desired_orientation := qId,
    desired_pose_epsilon := 0.1,
    closer_to_point_reward := 5, collision_penalty := -20,
    end_episode_points := 10,
    geo_distance := false,
    eulerFromQuat := fun _ => (0, 0, 0) }

/-- The same configuration in geodesic orientation-distance mode. -/
def cfgGeo : Config := { cfgW with geo_distance := true }

/-- A concrete observation: at the desired pose of cfgW. -/
def obsW : Obs7 := ⟨0, 0, 0, 1, 0, 0, 0⟩

/-- A concrete task state with zero baselines and zero accumulators. -/
def stW : TaskState := ⟨0, RV.val 0, 0, 0⟩

/-- The task state after one terminal step from stW under cfgW at obsW. -/
def stWafter : TaskState := ⟨0, RV.val 0, 10, 1⟩

/-- A concrete task state whose previous distance baseline is 100, so that the
step to obsW strictly decreases the combined distance. -/
def st100 : TaskState := ⟨100, RV.val 0, 0, 0⟩

/-- The task state after one non-terminal step from st100 under cfgW at
obsW. -/
def st100after : TaskState := ⟨0, RV.val 0, 5, 1⟩

/-- A concrete task state as left by an episode that ran 5 steps and
accumulated reward 7, fed into the next reset. -/
def stSteps5 : TaskState := ⟨0, RV.val 0, 7, 5⟩

/-- A concrete fresh bookkeeping state of RobotSimEnv. -/
def simW : SimState := ⟨0, 0, []⟩

end

/-- Characterisation of is_inside_workspace as the conjunction of the six
bound comparisons, lower bounds strict, upper bounds inclusive. -/
lemma is_inside_workspace_iff (cfg : Config) (p : Pt3) :
    is_inside_workspace cfg p = true ↔
      (p.x > cfg.work_space_x_min ∧ p.x ≤ cfg.work_space_x_max) ∧
      (p.y > cfg.work_space_y_min ∧ p.y ≤ cfg.work_space_y_max) ∧
      (p.z > cfg.work_space_z_min ∧ p.z ≤ cfg.work_space_z_max) := by
  unfold is_inside_workspace
  by_cases h1 : p.x > cfg.work_space_x_min ∧ p.x ≤ cfg.work_space_x_max <;>
    by_cases h2 : p.y > cfg.work_space_y_min ∧ p.y ≤ cfg.work_space_y_max <;>
      by_cases h3 : p.z > cfg.work_space_z_min ∧ p.z ≤ cfg.work_space_z_max <;>
        simp [h1, h2, h3]

/-- In absolute mode the orientation difference of a quaternion with itself
evaluates to 0: the minus-norm is 0 and the branch keeps the smaller value. -/
lemma gdbo_abs_self (cfg : Config) (hgeo : cfg.geo_distance = false) (a : Quat4) :
    get_difference_between_orientations cfg a a = Except.ok (RV.val 0) := by
  have hz : qdot (qsub a a) (qsub a a) = 0 := by simp only [qdot, qsub]; ring
  simp only [get_difference_between_orientations, hgeo, Bool.false_eq_true,
    if_false, hz, Real.sqrt_zero]
  by_cases h : (0 : ℝ) < Real.sqrt (qdot (qadd a a) (qadd a a))
  · rw [if_pos h]
  · rw [if_neg h]
    have h0 : Real.sqrt (qdot (qadd a a) (qadd a a)) = 0 :=
      le_antisymm (not_lt.mp h) (Real.sqrt_nonneg _)
    rw [h0]

/-- The concrete orientation difference used by the reward evaluations:
identity quaternion against the desired identity orientation of cfgW. -/
lemma gdo_cfgW_qId :
    get_difference_from_desired_orientation cfgW qId = Except.ok (RV.val 0) := by
  have : cfgW.desired_orientation = qId := rfl
  rw [get_difference_from_desired_orientation, this]
  exact gdbo_abs_self cfgW rfl qId

/-- The concrete distance evaluation used by the reward evaluations: the
origin is at distance 0 from the desired position of cfgW. -/
lemma gdp_cfgW_origin : get_distance_from_desired_point cfgW ⟨0, 0, 0⟩ = 0 := by
  rw [get_distance_from_desired_point, get_distance_between_points]
  norm_num [cfgW]

/-- The concrete pose obsW passes the terminal goal box test of cfgW with
epsilon 0.5. -/
lemma pose_cfgW_half : is_in_desired_pose cfgW obsW (0.5 : ℝ) = true := by
  rw [is_in_desired_pose]
  norm_num [cfgW, obsW, qId]

/-- Concrete evaluation of the terminal-step reward computation at obsW with
no collision: the goal box test passes, so the reward is end_episode_points
and the accumulators advance by one step. -/
lemma compute_reward_cfgW_terminal :
    compute_reward cfgW stW obsW true 0 = Except.ok (10, stWafter) := by
  have hq : (⟨obsW.qw, obsW.qx, obsW.qy, obsW.qz⟩ : Quat4) = qId := rfl
  have hp : (⟨obsW.x, obsW.y, obsW.z⟩ : Pt3) = (⟨0, 0, 0⟩ : Pt3) := rfl
  rw [compute_reward, hq, hp, gdo_cfgW_qId, gdp_cfgW_origin]
  simp only [Bool.not_true, Bool.false_eq_true, if_false, pose_cfgW_half, if_true]
  rw [if_neg (by norm_num)]
  simp [stW, stWafter, cfgW, pose_cfgW_half]

/-- Concrete evaluation of the non-terminal reward computation at obsW from
the baseline state st100 with a truthy collision reading 7: the combined
distance difference is -100 < 0, so the code returns closer_to_point_reward
(the collision assignment being dead). -/
lemma compute_reward_cfgW_nonterminal :
    compute_reward cfgW st100 obsW false 7 = Except.ok (5, st100after) := by
  have hq : (⟨obsW.qw, obsW.qx, obsW.qy, obsW.qz⟩ : Quat4) = qId := rfl
  have hp : (⟨obsW.x, obsW.y, obsW.z⟩ : Pt3) = (⟨0, 0, 0⟩ : Pt3) := rfl
  rw [compute_reward, hq, hp, gdo_cfgW_qId, gdp_cfgW_origin]
  have hdd : (((RV.val 0).sub (RV.val st100.previous_distance_from_des_point)).add
      ((RV.val 2).mul ((RV.val 0).sub
        st100.previous_difference_from_des_orientation))).lt0 = true := by
    simp only [st100, RV.sub, RV.add, RV.mul, RV.lt0, decide_eq_true_eq]
    norm_num
  simp only [Bool.not_false, if_true, hdd]
  simp [st100, st100after, cfgW]

/-- The cumulated episode reward after folding a list of per-step rewards is
the initial value plus the exact sum of the list. -/
lemma run_steps_cum (rewards : List ℝ) : ∀ s : SimState,
    (run_steps s rewards).cumulated_episode_reward =
      s.cumulated_episode_reward + rewards.sum := by
  induction rewards with
  | nil => intro s; simp [run_steps]
  | cons r rs ih =>
    intro s
    have h1 : run_steps s (r :: rs) = run_steps (step_accumulate s r) rs := rfl
    rw [h1, ih, step_accumulate]
    simp [List.sum_cons]
    ring

/-- The fields of the state written by init_env_variables that the
episode-boundary claims inspect: cumulated_reward is zeroed on every path
(it is assigned before the computation that can raise), and cumulated_steps
is never assigned, on any path. -/
lemma init_env_variables_fields (cfg : Config) (st : TaskState) (p : Pt3)
    (q : Quat4) :
    (init_env_variables cfg st p q).1.cumulated_reward = 0 ∧
    (init_env_variables cfg st p q).1.cumulated_steps = st.cumulated_steps := by
  rw [init_env_variables]
  rcases hE : get_difference_from_desired_orientation cfg q with e | od <;>
    simp [hE]

/-- C1: the claim states that in the non-terminal case a set collision flag
makes the returned reward equal the collision-response value and skips the
distance-improvement branch.  The source computes that assignment and then
unconditionally overwrites it with the distance branch, so the claim fails:
at a truthy collision reading of 7 with a strictly improving distance, the
returned reward is closer_to_point_reward = 5, not 7, and the distance branch
ran. -/
theorem C1_nonterminal_collision_is_overwritten :
    compute_reward cfgW st100 obsW false 7 = Except.ok (5, st100after) ∧
    (7 : ℝ) ≠ 0 ∧ cfgW.closer_to_point_reward = 5 ∧ (5 : ℝ) ≠ 7 :=
  ⟨compute_reward_cfgW_nonterminal, by norm_num, rfl, by norm_num⟩

/-- C2: _is_done computes the five flags (collision, workspace, ground, flip,
goal) and returns exactly their disjunction
collided OR NOT inside_workspace OR too_close_to_ground OR flipped OR
reached_goal, for every configuration, observation and collision reading. -/
theorem C2_termination_disjunction (cfg : Config) (obs : Obs7) (collision : ℝ) :
    is_done cfg obs collision =
      (decide (collision ≠ 0) || !is_inside_workspace cfg ⟨obs.x, obs.y, obs.z⟩ ||
        too_close_to_ground cfg (-1 * obs.z) ||
        drone_has_flipped cfg ⟨obs.qw, obs.qx, obs.qy, obs.qz⟩ ||
        is_in_desired_pose cfg obs cfg.desired_pose_epsilon) ∧
    (is_done cfg obs collision = true ↔
      (collision ≠ 0 ∨ is_inside_workspace cfg ⟨obs.x, obs.y, obs.z⟩ = false ∨
        too_close_to_ground cfg (-1 * obs.z) = true ∨
        drone_has_flipped cfg ⟨obs.qw, obs.qx, obs.qy, obs.qz⟩ = true ∨
        is_in_desired_pose cfg obs cfg.desired_pose_epsilon = true)) := by
  refine ⟨rfl, ?_⟩
  simp only [is_done, Bool.or_eq_true, Bool.not_eq_true', decide_eq_true_eq, ne_eq]
  tauto

/-- C3: whenever the terminal case (done = true) of _compute_reward returns a
reward, that reward is collision_penalty when the collision reading is truthy,
otherwise +end_episode_points when the 7-component pose passes the goal box
test with the fixed epsilon 0.5 (a literal constant, independent of the
termination epsilon cfg.desired_pose_epsilon), otherwise
-end_episode_points. -/
theorem C3_terminal_reward_selection (cfg : Config) (st : TaskState) (obs : Obs7)
    (collision : ℝ) (r : ℝ) (stNext : TaskState)
    (h : compute_reward cfg st obs true collision = Except.ok (r, stNext)) :
    r = if collision ≠ 0 then cfg.collision_penalty
        else if is_in_desired_pose cfg obs 0.5 then cfg.end_episode_points
        else -cfg.end_episode_points := by
  rw [compute_reward] at h
  rcases hE : get_difference_from_desired_orientation cfg
      ⟨obs.qw, obs.qx, obs.qy, obs.qz⟩ with e | od
  · rw [hE] at h; cases h
  · rw [hE] at h
    simp only [Bool.not_true, Bool.false_eq_true, if_false, Except.ok.injEq,
      Prod.mk.injEq] at h
    exact h.1.symm

/-- C3 witness: at cfgW with a terminal step at the desired pose and a zero
collision reading, _compute_reward returns reward 10 and the selection formula
evaluates to the same value. -/
theorem C3_witness :
    compute_reward cfgW stW obsW true 0 = Except.ok (10, stWafter) ∧
    (10 : ℝ) = if (0 : ℝ) ≠ 0 then cfgW.collision_penalty
        else if is_in_desired_pose cfgW obsW 0.5 then cfgW.end_episode_points
        else -cfgW.end_episode_points :=
  ⟨compute_reward_cfgW_terminal,
    C3_terminal_reward_selection cfgW stW obsW 0 10 stWafter
      compute_reward_cfgW_terminal⟩

/-- C4: in absolute mode the orientation distance is symmetric, zero on equal
quaternions and zero on antipodal quaternions; in geodesic mode, however, the
computation does not return a distance at all on nonzero input: at the
identity quaternion against itself it raises (the conjugate is an
inhomogeneous length-2 array whose elementwise product with the length-4
quaternion cannot broadcast), so the claimed identities fail in that mode. -/
theorem C4_orientation_distance_properties :
    (∀ cfg : Config, cfg.geo_distance = false → ∀ a b : Quat4,
      get_difference_between_orientations cfg a b =
        get_difference_between_orientations cfg b a ∧
      get_difference_between_orientations cfg a a = Except.ok (RV.val 0) ∧
      get_difference_between_orientations cfg a (qneg a) = Except.ok (RV.val 0)) ∧
    get_difference_between_orientations cfgGeo qId qId = Except.error PyExn.exn := by
  constructor
  · intro cfg hgeo a b
    refine ⟨?_, gdbo_abs_self cfg hgeo a, ?_⟩
    · have hm : qdot (qsub a b) (qsub a b) = qdot (qsub b a) (qsub b a) := by
        simp only [qdot, qsub]; ring
      have hp : qdot (qadd a b) (qadd a b) = qdot (qadd b a) (qadd b a) := by
        simp only [qdot, qadd]; ring
      simp only [get_difference_between_orientations, hgeo, Bool.false_eq_true,
        if_false, hm, hp]
    · have hz : qdot (qadd a (qneg a)) (qadd a (qneg a)) = 0 := by
        simp only [qdot, qadd, qneg]; ring
      simp only [get_difference_between_orientations, hgeo, Bool.false_eq_true,
        if_false, hz, Real.sqrt_zero]
      rw [if_neg (not_lt.mpr (Real.sqrt_nonneg _))]
  · have hgeo : cfgGeo.geo_distance = true := rfl
    have hdot : qdot qId qId > 0 := by norm_num [qdot, qId]
    simp [get_difference_between_orientations, hgeo, hdot, npBroadcastLen]

/-- C4 witness: the absolute-mode part applied at the concrete configuration
cfgW and the concrete quaternion pair (qId, qZero). -/
theorem C4_witness :
    cfgW.geo_distance = false ∧
    (get_difference_between_orientations cfgW qId qZero =
        get_difference_between_orientations cfgW qZero qId ∧
      get_difference_between_orientations cfgW qId qId = Except.ok (RV.val 0) ∧
      get_difference_between_orientations cfgW qId (qneg qId) =
        Except.ok (RV.val 0)) :=
  ⟨rfl, C4_orientation_distance_properties.1 cfgW rfl qId qZero⟩

/-- C5 counterexample: on a zero-norm q_start in geodesic mode the source does
not raise; it logs and returns the float NaN normally, so the result is a
normal return (Except.ok RV.nan), not an exception. -/
theorem C5_counterexample :
    get_difference_between_orientations cfgGeo qZero qId = Except.ok RV.nan ∧
    (Except.ok RV.nan : Except PyExn RV) ≠ Except.error PyExn.exn := by
  constructor
  · have hgeo : cfgGeo.geo_distance = true := rfl
    have hdot : ¬ qdot qZero qZero > 0 := by norm_num [qdot, qZero]
    simp [get_difference_between_orientations, hgeo, hdot]
  · simp

/-- C5 amended: when q_start has non-positive self-dot (over the reals,
exactly the zero quaternion) in geodesic mode, the computation logs an error
and returns NaN as its value; no exception is raised. -/
theorem C5_zero_norm_returns_nan (cfg : Config) (hgeo : cfg.geo_distance = true)
    (ostart o_end : Quat4) (hdot : ¬ qdot ostart ostart > 0) :
    get_difference_between_orientations cfg ostart o_end = Except.ok RV.nan := by
  simp [get_difference_between_orientations, hgeo, hdot]

/-- C5 witness: the amended statement applied at the concrete geodesic
configuration and the zero quaternion. -/
theorem C5_witness :
    cfgGeo.geo_distance = true ∧ ¬ qdot qZero qZero > 0 ∧
    get_difference_between_orientations cfgGeo qZero qZero = Except.ok RV.nan :=
  ⟨rfl, by norm_num [qdot, qZero],
    C5_zero_norm_returns_nan cfgGeo rfl qZero qZero (by norm_num [qdot, qZero])⟩

/-- C6: starting from a fresh episode (cumulated_episode_reward = 0), after N
steps the accumulator equals the exact sum of the N per-step rewards; and
_update_episode, run on each reset after a prior episode, publishes the pair
(episode_num, cumulated_episode_reward), increments episode_num by exactly 1
and resets the accumulator to 0. -/
theorem C6_episode_accumulation (s : SimState) (rewards : List ℝ) :
    (s.cumulated_episode_reward = 0 →
      (run_steps s rewards).cumulated_episode_reward = rewards.sum) ∧
    (update_episode s).episode_num = s.episode_num + 1 ∧
    (update_episode s).cumulated_episode_reward = 0 ∧
    (update_episode s).published =
      s.published ++ [(s.episode_num, s.cumulated_episode_reward)] :=
  ⟨fun h0 => by rw [run_steps_cum, h0, zero_add], rfl, rfl, rfl⟩

/-- C6 witness: a fresh bookkeeping state stepped with rewards [1, 2, 3]
accumulates their sum, and its reset increments the episode counter and zeroes
the accumulator. -/
theorem C6_witness :
    simW.cumulated_episode_reward = 0 ∧
    (run_steps simW [1, 2, 3]).cumulated_episode_reward = ([1, 2, 3] : List ℝ).sum ∧
    (update_episode simW).episode_num = simW.episode_num + 1 ∧
    (update_episode simW).cumulated_episode_reward = 0 :=
  ⟨rfl, (C6_episode_accumulation simW [1, 2, 3]).1 rfl,
    (C6_episode_accumulation simW [1, 2, 3]).2.1,
    (C6_episode_accumulation simW [1, 2, 3]).2.2.1⟩

/-- C7 amended: the per-episode initialisation zeroes cumulated_reward on
every path, but never assigns cumulated_steps, which keeps its pre-reset
value. -/
theorem C7_amended_reset_accumulators (cfg : Config) (st : TaskState) (p : Pt3)
    (q : Quat4) :
    (init_env_variables cfg st p q).1.cumulated_reward = 0 ∧
    (init_env_variables cfg st p q).1.cumulated_steps = st.cumulated_steps :=
  init_env_variables_fields cfg st p q

/-- C7 counterexample: after a reset that follows an episode of 5 steps, the
post-reset state has cumulated_steps = 5, not 0, while cumulated_reward is
zeroed; the claim that both accumulators are zeroed is false. -/
theorem C7_counterexample :
    (init_env_variables cfgW stSteps5 ⟨0, 0, 0⟩ qId).1.cumulated_steps ≠ 0 ∧
    (init_env_variables cfgW stSteps5 ⟨0, 0, 0⟩ qId).1.cumulated_reward = 0 := by
  have h := init_env_variables_fields cfgW stSteps5 ⟨0, 0, 0⟩ qId
  refine ⟨?_, h.1⟩
  rw [h.2]
  norm_num [stSteps5]

/-- C8: is_inside_workspace returns true exactly when every axis satisfies
min < component AND component <= max; in the spec scenario with bounds
x, y in (0, 10] and z in (0, 5], the position (5, 5, 2.5) is inside,
(0, 5, 2.5) is outside (exclusive lower bound) and (10, 5, 2.5) is inside
(inclusive upper bound). -/
theorem C8_workspace_bounds :
    (∀ (cfg : Config) (p : Pt3),
      is_inside_workspace cfg p = true ↔
        (p.x > cfg.work_space_x_min ∧ p.x ≤ cfg.work_space_x_max) ∧
        (p.y > cfg.work_space_y_min ∧ p.y ≤ cfg.work_space_y_max) ∧
        (p.z > cfg.work_space_z_min ∧ p.z ≤ cfg.work_space_z_max)) ∧
    is_inside_workspace cfgW ⟨5, 5, 2.5⟩ = true ∧
    is_inside_workspace cfgW ⟨0, 5, 2.5⟩ = false ∧
    is_inside_workspace cfgW ⟨10, 5, 2.5⟩ = true := by
  refine ⟨is_inside_workspace_iff, ?_, ?_, ?_⟩
  · rw [is_inside_workspace_iff]
    norm_num [cfgW]
  · simp only [Bool.eq_false_iff, ne_eq, is_inside_workspace_iff]
    norm_num [cfgW]
  · rw [is_inside_workspace_iff]
    norm_num [cfgW]

/-- C9 (implicit): when the configured workspace floor and minimum height are
both non-negative, every step terminates: inside the workspace z is positive,
so the ground check, which is fed the negated altitude -1*z, fires; outside
the workspace the bounds flag fires; hence _is_done is true for every
observation and collision reading. -/
theorem C9_nonnegative_floor_always_done (cfg : Config)
    (hz : 0 ≤ cfg.work_space_z_min) (hh : 0 ≤ cfg.min_height)
    (obs : Obs7) (collision : ℝ) :
    is_done cfg obs collision = true := by
  by_cases hin : is_inside_workspace cfg ⟨obs.x, obs.y, obs.z⟩ = true
  · have hzpos : obs.z > cfg.work_space_z_min :=
      ((is_inside_workspace_iff cfg ⟨obs.x, obs.y, obs.z⟩).mp hin).2.2.1
    have hg : too_close_to_ground cfg (-obs.z) = true := by
      rw [too_close_to_ground, decide_eq_true_eq]
      linarith
    simp [is_done, hg]
  · have hfalse : is_inside_workspace cfg ⟨obs.x, obs.y, obs.z⟩ = false :=
      Bool.eq_false_iff.mpr hin
    simp [is_done, hfalse]

/-- C9 witness: the concrete configuration cfgW has floor 0 and minimum height
1, both non-negative, and every step under it is terminal. -/
theorem C9_witness :
    (0 : ℝ) ≤ cfgW.work_space_z_min ∧ (0 : ℝ) ≤ cfgW.min_height ∧
    is_done cfgW obsW 0 = true :=
  ⟨by norm_num [cfgW], by norm_num [cfgW],
    C9_nonnegative_floor_always_done cfgW (by norm_num [cfgW])
      (by norm_num [cfgW]) obsW 0⟩

/-- C10 (implicit): in geodesic mode, for every q_start of positive self-dot
(every nonzero quaternion), get_difference_between_orientations raises instead
of returning: the inhomogeneous length-2 conjugate array cannot be broadcast
against the length-4 quaternion, so no such input reaches a normal return. -/
theorem C10_geodesic_always_raises (cfg : Config) (hgeo : cfg.geo_distance = true)
    (ostart o_end : Quat4) (hdot : qdot ostart ostart > 0) :
    get_difference_between_orientations cfg ostart o_end = Except.error PyExn.exn := by
  simp [get_difference_between_orientations, hgeo, hdot, npBroadcastLen]

/-- C10 witness: the statement applied at the geodesic configuration with the
identity quaternion, whose self-dot is 1 > 0. -/
theorem C10_witness :
    cfgGeo.geo_distance = true ∧ qdot qId qId > 0 ∧
    get_difference_between_orientations cfgGeo qId qZero = Except.error PyExn.exn :=
  ⟨rfl, by norm_num [qdot, qId],
    C10_geodesic_always_raises cfgGeo rfl qId qZero (by norm_num [qdot, qId])⟩
